import Mathlib

/-!
Shallow embedding of the incremental download reconciliation and
relationship-caching logic of `pybis_common.py`, together with theorems about
its behaviour.

Conventions of the embedding:
* Python numeric timestamps (`time.time()`, `st_mtime`) are modelled as `Int`;
  the source only compares and subtracts them, which is order-preserving.
* Python values that may be `None` are modelled as `Option`.
* A Python function that catches every exception internally and returns `None`
  on failure (such as `_compute_file_checksum`) is modelled as a field of the
  input state holding the `Option` outcome of that call.
* Python truthiness of strings (`if s:`) is non-emptiness; truthiness of a
  numeric value is being nonzero; truthiness of a list is non-emptiness;
  `None` is falsy.
-/

namespace Pybis

/-! ## Data model: remote file descriptors and local file state -/

/-- The `modificationDate` attribute of a remote file record, as the external
client may deliver it: absent (`None`), an object with a `timestamp()` method,
a plain numeric timestamp, or a string. -/
inductive RemoteMTime where
  | absent : RemoteMTime
  | tsObj : Int → RemoteMTime
  | numeric : Int → RemoteMTime
  | strVal : String → RemoteMTime
deriving DecidableEq, Repr

/-- A remote file record as consumed by `_should_skip_file`: the attributes
`fileLength`, `modificationDate`, `checksum` and `crc32`, each possibly
absent. -/
structure RemoteFileInfo where
  fileLength : Option Nat
  modificationDate : RemoteMTime
  checksum : Option String
  crc32 : Option String
deriving DecidableEq, Repr

/-- The local filesystem facts `_should_skip_file` consults for one path:
whether the file exists, its size, the outcome of reading its mtime
(`none` models the `stat` call inside the `try` block raising), and the
outcome of `_compute_file_checksum` (`none` models the computation failing,
which that function catches and turns into `None`). -/
structure LocalFileState where
  fsExists : Bool
  size : Nat
  mtimeResult : Option Int
  checksumResult : Option String
deriving DecidableEq, Repr

/-- Python truthiness of an optional string: `None` and `""` are falsy. -/
def optStrTruthy : Option String → Bool
  | none => false
  | some s => !s.isEmpty

/-- Python `a or b` on two optional strings. -/
def pyOr (a b : Option String) : Option String :=
  if optStrTruthy a then a else b

/-- Python `str.lower()`, written over the character list so that it reduces
in the kernel. -/
def strLower (s : String) : String :=
  String.mk (s.data.map Char.toLower)

/-- The reason strings `_should_skip_file` can produce, as an enumeration
(the size-mismatch reason carries the two sizes it interpolates). -/
inductive Reason where
  | fileDoesNotExist : Reason
  | sizeMismatch : Nat → Nat → Reason
  | localNewerOrSameAge : Reason
  | checksumMismatch : Reason
  | checksumVerified : Reason
  | fileExistsMatchingSize : Reason
  | unknownVerificationFailure : Reason
deriving DecidableEq, Repr

/-- The numeric value the mtime block ends up comparing: a `timestamp()`
object is converted to its number, a string is replaced by `None`
(`# Skip string parsing for now - too variable`). -/
def effectiveRemoteMTime : RemoteMTime → Option Int
  | RemoteMTime.absent => none
  | RemoteMTime.tsObj t => some t
  | RemoteMTime.numeric t => some t
  | RemoteMTime.strVal _ => none

/-- The guard of the size-mismatch branch:
`remote_size is not None and local_size != remote_size`. -/
def sizeMismatchFires (localSize : Nat) (remoteSize : Option Nat) : Bool :=
  match remoteSize with
  | some r => localSize ≠ r
  | none => false

/-- The guard of the mtime branch: after conversion,
`if remote_mtime and local_mtime >= remote_mtime`.  A numeric remote mtime of
`0` is falsy in Python, so the branch does not fire for it.  If reading the
local mtime raised (`mtimeResult = none`) the whole block is skipped by the
surrounding `except`. -/
def mtimeBranchFires (localMtime : Option Int) (remoteMtime : RemoteMTime) : Bool :=
  match localMtime, effectiveRemoteMTime remoteMtime with
  | some lm, some rm => rm ≠ 0 && rm ≤ lm
  | _, _ => false

/-- The final fallthrough of `_should_skip_file`:
`if remote_size is None or local_size == remote_size` then skip, else the
"Unknown verification failure" fetch. -/
def defaultDecision (localSize : Nat) (remoteSize : Option Nat) : Bool × Reason :=
  if remoteSize = none ∨ remoteSize = some localSize then
    (true, Reason.fileExistsMatchingSize)
  else
    (false, Reason.unknownVerificationFailure)

/-- Embedding of `_should_skip_file(local_file_path, remote_file_info,
verify_checksum)`.  Returns the pair (should_skip, reason) following the
source's branch order: existence, size mismatch, mtime, optional checksum
verification, default. -/
def shouldSkipFile (lf : LocalFileState) (rf : RemoteFileInfo)
    (verifyChecksum : Bool) : Bool × Reason :=
  if lf.fsExists = false then
    (false, Reason.fileDoesNotExist)
  else if sizeMismatchFires lf.size rf.fileLength then
    (false, Reason.sizeMismatch lf.size (rf.fileLength.getD 0))
  else if mtimeBranchFires lf.mtimeResult rf.modificationDate then
    (true, Reason.localNewerOrSameAge)
  else
    let remoteChecksum := pyOr rf.checksum rf.crc32
    if verifyChecksum && optStrTruthy remoteChecksum then
      match lf.checksumResult with
      | some lc =>
          if !lc.isEmpty && strLower lc ≠ strLower (remoteChecksum.getD "") then
            (false, Reason.checksumMismatch)
          else if !lc.isEmpty then
            (true, Reason.checksumVerified)
          else
            defaultDecision lf.size rf.fileLength
      | none => defaultDecision lf.size rf.fileLength
    else
      defaultDecision lf.size rf.fileLength

/-! ## Relationship cache

The source keeps two module-level dicts, `_relationship_cache` (key → value
list) and `_cache_timestamps` (key → insertion time), with
`CACHE_EXPIRY_MINUTES = 15`.  Dicts are modelled as association lists whose
most recent binding for a key is the first one found by `alookup`; a dict
assignment is modelled by consing a new binding in front, which has the same
lookup behaviour. -/

/-- A normalized relationship record as produced by
`_process_relationship_results`: the dict
`{code, type, name, registration_date}`. -/
structure RelRecord where
  code : String
  type : String
  name : String
  registration_date : String
deriving DecidableEq, Repr

/-- First-match association-list lookup, the dict-read model. -/
def alookup {β : Type} (k : String) : List (String × β) → Option β
  | [] => none
  | (k', v) :: rest => if k' = k then some v else alookup k rest

/-- The pair of module-level dicts backing the relationship cache. -/
structure CacheState where
  relationship_cache : List (String × List RelRecord)
  cache_timestamps : List (String × Int)
deriving DecidableEq, Repr

/-- The module-level constant `CACHE_EXPIRY_MINUTES = 15`. -/
def CACHE_EXPIRY_MINUTES : Int := 15

/-- The initial state of the two empty module-level dicts. -/
def emptyCache : CacheState := ⟨[], []⟩

/-- Embedding of `_get_relationship_cache(cache_key)`: reads the current time
(`current_time` argument) and returns the cached list when the key is in both
dicts and younger than the expiry window, else `None`.  It only reads the two
dicts; in particular it never evicts an expired entry. -/
def getRelationshipCache (s : CacheState) (cache_key : String)
    (current_time : Int) : Option (List RelRecord) :=
  match alookup cache_key s.relationship_cache, alookup cache_key s.cache_timestamps with
  | some v, some ts =>
      if current_time - ts < CACHE_EXPIRY_MINUTES * 60 then some v else none
  | _, _ => none

/-- Embedding of `_set_relationship_cache(cache_key, data)`: stores the data
and the current time, overwriting any prior binding for the key in both
dicts. -/
def setRelationshipCache (s : CacheState) (cache_key : String)
    (data : List RelRecord) (current_time : Int) : CacheState :=
  { relationship_cache := (cache_key, data) :: s.relationship_cache
    cache_timestamps := (cache_key, current_time) :: s.cache_timestamps }

/-! ## Relationship lookup with fallback

`_search_dataset_children` consults the cache, then issues the server-side
filtered query `o.get_datasets(withParents=...)`; on an exception it calls
`_search_dataset_children_fallback`, which fetches the dataset by code and
calls `dataset.get_children()`.  (`_search_dataset_parents` is the mirror
image with `withChildren` and `get_parents()`; the embedding covers the
children direction.)  The external client is modelled by a record of the
outcomes of the three calls the lookup can make. -/

/-- Outcome of one call into the external client: a returned value, or a
raised exception. -/
inductive PyResult (α : Type) where
  | ok : α → PyResult α
  | raised : PyResult α
deriving DecidableEq, Repr

/-- A raw result record from the external client, carrying the optional
attributes the normalizer probes with `getattr`. -/
structure RawItem where
  code : Option String
  type : Option String
  name : Option String
  registrationDate : Option String
deriving DecidableEq, Repr

/-- The behaviour of the external client during one children lookup:
the outcome of the filtered query `o.get_datasets(withParents=dataset_code)`
(whose value may itself be `None` or a result collection), the outcome of the
by-code fetch `o.get_datasets(code=dataset_code)`, and the outcome of
`dataset.get_children()` on the fetched object (a `None` or a list). -/
structure ClientBehavior where
  filteredQuery : PyResult (Option (List RawItem))
  byCodeQuery : PyResult (List RawItem)
  ownAccessor : PyResult (Option (List RawItem))

/-- Embedding of `_process_relationship_results` on a DataFrame-shaped result
collection: each row is normalized to
`{code (default N/A), type (default Unknown), name (or ''),
str(registrationDate)[:10]}`. -/
def processRelationshipResults (items : List RawItem) : List RelRecord :=
  items.map fun item =>
    { code := item.code.getD "N/A"
      type := item.type.getD "Unknown"
      name := if optStrTruthy item.name then item.name.getD "" else ""
      registration_date := (item.registrationDate.getD "").take 10 }

/-- Embedding of `_search_dataset_children_fallback(o, dataset_code)`.
Faithful to the source: when the by-code query raises, the `except` block
prints and the function ends, returning `None`; when the dataset list is
empty it executes a bare `return` (`None`); and in the remaining paths it
prints the children found by `dataset.get_children()` (or that none were
found) and then falls off the end of the function — there is no `return`
statement carrying the children, so every path yields `None`. -/
def searchDatasetChildrenFallback (env : ClientBehavior) :
    Option (List RelRecord) :=
  match env.byCodeQuery with
  | PyResult.raised => none
  | PyResult.ok datasets =>
      if datasets.length = 0 then none
      else
        match env.ownAccessor with
        | PyResult.raised => none
        | PyResult.ok _ => none

/-- Embedding of `_search_dataset_children(o, dataset_code)` threading the
cache state and the current time explicitly.  Returns the result list and the
cache state after the call. -/
def searchDatasetChildren (env : ClientBehavior) (dataset_code : String)
    (s : CacheState) (now : Int) : List RelRecord × CacheState :=
  let cache_key := "children_" ++ dataset_code
  match getRelationshipCache s cache_key now with
  | some cached => (cached, s)
  | none =>
      match env.filteredQuery with
      | PyResult.ok res =>
          match res with
          | some items =>
              if items.length > 0 then
                let processed := processRelationshipResults items
                (processed, setRelationshipCache s cache_key processed now)
              else
                ([], setRelationshipCache s cache_key [] now)
          | none => ([], setRelationshipCache s cache_key [] now)
      | PyResult.raised =>
          match searchDatasetChildrenFallback env with
          | some result =>
              if result.length > 0 then
                (result, setRelationshipCache s cache_key result now)
              else
                (result, s)
          | none => ([], s)

/-! ## Dataset download

`_download_dataset(o, dataset_code, output_dir, force, verify_checksum)`
fetches the dataset object, then (unless `force`) enumerates the file
manifest with `dataset.get_files(start_folder="/")`, classifies each file
with `_should_skip_file`, and short-circuits with success when nothing needs
downloading; otherwise (or when `force` is set, or when enumeration raised)
it issues the transfer call `dataset.download(...)`. -/

/-- One row of the manifest returned by `dataset.get_files` (DataFrame
shape): the optional `pathInDataSet` attribute and the attributes
`_should_skip_file` reads from the same row. -/
structure ManifestEntry where
  pathInDataSet : Option String
  fileInfo : RemoteFileInfo

/-- The collaborators of one `_download_dataset` call: whether
`o.get_dataset` finds the dataset, the outcome of manifest enumeration, the
local filesystem state at each manifest path (under the output directory),
and whether the transfer call succeeds and materializes files. -/
structure DownloadEnv where
  datasetFound : Bool
  manifest : PyResult (List ManifestEntry)
  fs : String → LocalFileState
  transferOk : Bool

/-- The outcome of `_download_dataset`, instrumented with whether the
external client's transfer call `dataset.download(...)` was invoked. -/
structure DownloadOutcome where
  success : Bool
  transferInvoked : Bool
deriving DecidableEq, Repr

/-- One iteration of the per-file analysis loop: rows whose `pathInDataSet`
is missing or empty (falsy) are ignored; otherwise the skip decision either
bumps `skip_count` or bumps `download_count` and appends the path to
`files_to_download`.  The accumulator is
`(skip_count, download_count, files_to_download)`. -/
def analyzeStep (fs : String → LocalFileState) (verifyChecksum : Bool)
    (acc : Nat × Nat × List String) (e : ManifestEntry) :
    Nat × Nat × List String :=
  match e.pathInDataSet with
  | none => acc
  | some p =>
      if p.isEmpty then acc
      else if (shouldSkipFile (fs p) e.fileInfo verifyChecksum).1 then
        (acc.1 + 1, acc.2.1, acc.2.2)
      else
        (acc.1, acc.2.1 + 1, acc.2.2 ++ [p])

/-- The analysis loop of `_download_dataset` over the whole manifest. -/
def analyzeFiles (fs : String → LocalFileState) (verifyChecksum : Bool)
    (entries : List ManifestEntry) : Nat × Nat × List String :=
  entries.foldl (analyzeStep fs verifyChecksum) (0, 0, [])

/-- The transfer phase: `dataset.download(destination=...)` followed by the
on-disk file-count verification, collapsed into the externally supplied
outcome bit. -/
def doTransfer (env : DownloadEnv) : DownloadOutcome :=
  { success := env.transferOk, transferInvoked := true }

/-- Embedding of `_download_dataset`: dataset-not-found fails without
transfer; with `force` unset and a successfully enumerated manifest, a zero
`download_count` returns success without the transfer call; every other path
(files to download, `force` set, or manifest enumeration raised) reaches the
transfer call. -/
def downloadDataset (env : DownloadEnv) (force verifyChecksum : Bool) :
    DownloadOutcome :=
  if env.datasetFound = false then
    { success := false, transferInvoked := false }
  else if force = false then
    match env.manifest with
    | PyResult.ok entries =>
        if (analyzeFiles env.fs verifyChecksum entries).2.1 = 0 then
          { success := true, transferInvoked := false }
        else
          doTransfer env
    | PyResult.raised => doTransfer env
  else
    doTransfer env

/-! ## Concrete inputs used in counterexamples and witnesses -/

/-- Local state: file exists, size 100, mtime 200, digest `"aaaa"`. -/
def cexLocalMtimeWins : LocalFileState :=
  { fsExists := true, size := 100, mtimeResult := some 200
    checksumResult := some "aaaa" }

/-- Remote record: size 100, numeric mtime 100 (older than local), checksum
`"bbbb"` differing from the local digest. -/
def cexRemoteMtimeWins : RemoteFileInfo :=
  { fileLength := some 100, modificationDate := RemoteMTime.numeric 100
    checksum := some "bbbb", crc32 := none }

/-- Local state: file exists, size 100, mtime 5, digest `"aaaa"`. -/
def cexLocalZeroMtime : LocalFileState :=
  { fsExists := true, size := 100, mtimeResult := some 5
    checksumResult := some "aaaa" }

/-- Remote record: size 100, numeric mtime 0 (not newer than local, but
falsy in Python), checksum `"bbbb"` differing from the local digest. -/
def cexRemoteZeroMtime : RemoteFileInfo :=
  { fileLength := some 100, modificationDate := RemoteMTime.numeric 0
    checksum := some "bbbb", crc32 := none }

/-- A child record as the external client would return it. -/
def dsChildRaw : RawItem :=
  { code := some "DS2", type := some "RAW_DATA", name := some ""
    registrationDate := some "2024-01-01" }

/-- Client behaviour for the fallback scenario: the filtered query raises,
the by-code fetch finds the dataset, and its own accessor yields one child. -/
def cexFallbackEnv : ClientBehavior :=
  { filteredQuery := PyResult.raised
    byCodeQuery := PyResult.ok
      [{ code := some "DS1", type := some "RAW_DATA", name := some ""
         registrationDate := some "2024-01-01" }]
    ownAccessor := PyResult.ok (some [dsChildRaw]) }

/-- Local state for witnesses: file exists with size 100 and no usable mtime
or checksum information. -/
def witLocalPlain : LocalFileState :=
  { fsExists := true, size := 100, mtimeResult := none
    checksumResult := none }

/-- Remote record for witnesses: known size 100, nothing else usable. -/
def witRemotePlain : RemoteFileInfo :=
  { fileLength := some 100, modificationDate := RemoteMTime.absent
    checksum := none, crc32 := none }

/-- Download environment for the all-skipped scenario: dataset found, one
manifest row `a.txt` of size 100, local copy of matching size everywhere. -/
def witDownloadEnv : DownloadEnv :=
  { datasetFound := true
    manifest := PyResult.ok [⟨some "a.txt", witRemotePlain⟩]
    fs := fun _ => witLocalPlain
    transferOk := true }

/-- The structural invariant of the two cache dicts: every key bound in the
value dict also has a binding in the timestamp dict. -/
def cacheInvariant (s : CacheState) : Prop :=
  ∀ k, (alookup k s.relationship_cache).isSome = true →
    (alookup k s.cache_timestamps).isSome = true

/-! ## Theorems -/

/-- When the size-mismatch guard is false, the final fallthrough of
`_should_skip_file` always takes its skip branch. -/
theorem defaultDecision_of_no_mismatch (localSize : Nat) (remoteSize : Option Nat)
    (h : sizeMismatchFires localSize remoteSize = false) :
    defaultDecision localSize remoteSize = (true, Reason.fileExistsMatchingSize) := by
  cases remoteSize with
  | none => simp [defaultDecision]
  | some r =>
      simp only [sizeMismatchFires, decide_eq_false_iff_not, not_not] at h
      simp [defaultDecision, h]

/-- C7: if the local file exists, the remote size is known and the local size
differs from it, the decision is fetch (with the size-mismatch reason),
regardless of modification times, checksums and the `verify_checksum`
flag. -/
theorem c7_size_mismatch_fetch (lf : LocalFileState) (rf : RemoteFileInfo)
    (r : Nat) (vc : Bool)
    (hex : lf.fsExists = true) (hr : rf.fileLength = some r)
    (hne : lf.size ≠ r) :
    shouldSkipFile lf rf vc = (false, Reason.sizeMismatch lf.size r) := by
  simp [shouldSkipFile, sizeMismatchFires, hex, hr, hne]

/-- C7 witness: a concrete local file of size 99 against a remote size of 100
is fetched. -/
theorem c7_witness :
    shouldSkipFile ⟨true, 99, none, none⟩
      ⟨some 100, RemoteMTime.absent, none, none⟩ true
      = (false, Reason.sizeMismatch 99 100) :=
  c7_size_mismatch_fetch _ _ 100 true rfl rfl (by decide)

/-- C2 counterexample: the claim as stated is false.  The input satisfies all
of the claim's hypotheses — local file exists, sizes match (100 = 100),
`verify_checksum = true`, a remote checksum is present, and the local digest
differs from it case-insensitively — yet the decision is skip, not fetch,
because the modification-time rule (remote mtime 100 ≤ local mtime 200)
returns before the checksum comparison is reached. -/
theorem c2_counterexample :
    cexLocalMtimeWins.fsExists = true ∧
    cexRemoteMtimeWins.fileLength = some cexLocalMtimeWins.size ∧
    optStrTruthy (pyOr cexRemoteMtimeWins.checksum cexRemoteMtimeWins.crc32) = true ∧
    cexLocalMtimeWins.checksumResult = some "aaaa" ∧
    strLower "aaaa" ≠ strLower ((pyOr cexRemoteMtimeWins.checksum cexRemoteMtimeWins.crc32).getD "") ∧
    shouldSkipFile cexLocalMtimeWins cexRemoteMtimeWins true
      = (true, Reason.localNewerOrSameAge) := by
  decide

/-- C2 (amended): under the claim's hypotheses and additionally assuming the
modification-time rule does not fire, a successfully computed non-empty local
digest that differs case-insensitively from the present remote checksum
yields fetch. -/
theorem c2_checksum_mismatch_fetch (lf : LocalFileState) (rf : RemoteFileInfo)
    (lc : String)
    (hex : lf.fsExists = true)
    (hsz : rf.fileLength = some lf.size)
    (hmt : mtimeBranchFires lf.mtimeResult rf.modificationDate = false)
    (hrc : optStrTruthy (pyOr rf.checksum rf.crc32) = true)
    (hlc : lf.checksumResult = some lc)
    (hne : lc.isEmpty = false)
    (hdiff : strLower lc ≠ strLower ((pyOr rf.checksum rf.crc32).getD "")) :
    shouldSkipFile lf rf true = (false, Reason.checksumMismatch) := by
  simp [shouldSkipFile, sizeMismatchFires, hex, hsz, hmt, hrc, hlc, hne, hdiff]

/-- C2 witness: with no usable remote mtime, matching sizes and digest
`"aaaa"` against remote checksum `"bbbb"`, the decision is fetch. -/
theorem c2_witness :
    shouldSkipFile ⟨true, 100, some 5, some "aaaa"⟩
      ⟨some 100, RemoteMTime.absent, some "bbbb", none⟩ true
      = (false, Reason.checksumMismatch) :=
  c2_checksum_mismatch_fetch _ _ "aaaa" rfl rfl (by decide) (by decide) rfl
    (by decide) (by decide)

/-- C3 counterexample: the claim as stated is false.  The input satisfies the
claim's hypotheses — local file exists, sizes match, remote mtime is numeric
(value 0) and not newer than the local mtime 5 — yet with
`verify_checksum = true` and a mismatched checksum the decision is fetch:
the numeric remote mtime 0 is falsy in Python, so the mtime skip branch does
not fire and the checksum comparison runs. -/
theorem c3_counterexample :
    cexLocalZeroMtime.fsExists = true ∧
    cexRemoteZeroMtime.fileLength = some cexLocalZeroMtime.size ∧
    effectiveRemoteMTime cexRemoteZeroMtime.modificationDate = some 0 ∧
    cexLocalZeroMtime.mtimeResult = some 5 ∧ (0 : Int) ≤ 5 ∧
    shouldSkipFile cexLocalZeroMtime cexRemoteZeroMtime true
      = (false, Reason.checksumMismatch) := by
  decide

/-- C3 (amended): if the local file exists, sizes match, and the remote mtime
is numeric, nonzero and not newer than the local mtime, the decision is skip
for both values of `verify_checksum`. -/
theorem c3_mtime_skip (lf : LocalFileState) (rf : RemoteFileInfo)
    (rm lm : Int) (vc : Bool)
    (hex : lf.fsExists = true)
    (hsz : rf.fileLength = some lf.size)
    (hrm : rf.modificationDate = RemoteMTime.numeric rm) (hnz : rm ≠ 0)
    (hlm : lf.mtimeResult = some lm) (hle : rm ≤ lm) :
    shouldSkipFile lf rf vc = (true, Reason.localNewerOrSameAge) := by
  simp [shouldSkipFile, sizeMismatchFires, mtimeBranchFires,
    effectiveRemoteMTime, hex, hsz, hrm, hnz, hlm, hle]

/-- C3 witness: remote mtime 100, local mtime 200, matching sizes, checksum
mismatch present but not consulted: skip under both flag values (shown with
`verify_checksum = true`). -/
theorem c3_witness :
    shouldSkipFile cexLocalMtimeWins cexRemoteMtimeWins true
      = (true, Reason.localNewerOrSameAge) :=
  c3_mtime_skip cexLocalMtimeWins cexRemoteMtimeWins 100 200 true rfl rfl rfl
    (by decide) rfl (by decide)

/-- C8: if the local file exists and the checksum computation fails (the
source catches the error and returns `None`), the decision with
`verify_checksum = true` coincides with the decision without checksum
verification — no exception escapes, the comparison is skipped — and in
particular a matching or unknown remote size yields skip. -/
theorem c8_checksum_failure_degrades (lf : LocalFileState) (rf : RemoteFileInfo)
    (hex : lf.fsExists = true) (hfail : lf.checksumResult = none) :
    shouldSkipFile lf rf true = shouldSkipFile lf rf false ∧
    ((rf.fileLength = none ∨ rf.fileLength = some lf.size) →
      (shouldSkipFile lf rf true).1 = true) := by
  by_cases hsm : sizeMismatchFires lf.size rf.fileLength = true
  · refine ⟨by simp [shouldSkipFile, hex, hsm], fun hsz => absurd hsm ?_⟩
    rcases hsz with h | h <;> simp [sizeMismatchFires, h]
  · have hsm' : sizeMismatchFires lf.size rf.fileLength = false := by
      revert hsm; cases sizeMismatchFires lf.size rf.fileLength <;> simp
    have hdef := defaultDecision_of_no_mismatch lf.size rf.fileLength hsm'
    by_cases hmt : mtimeBranchFires lf.mtimeResult rf.modificationDate = true
    · exact ⟨by simp [shouldSkipFile, hex, hsm', hmt],
        fun _ => by simp [shouldSkipFile, hex, hsm', hmt]⟩
    · have hmt' : mtimeBranchFires lf.mtimeResult rf.modificationDate = false := by
        revert hmt; cases mtimeBranchFires lf.mtimeResult rf.modificationDate <;> simp
      by_cases hrc : optStrTruthy (pyOr rf.checksum rf.crc32) = true
      · exact ⟨by simp [shouldSkipFile, hex, hsm', hmt', hrc, hfail, hdef],
          fun _ => by simp [shouldSkipFile, hex, hsm', hmt', hrc, hfail, hdef]⟩
      · have hrc' : optStrTruthy (pyOr rf.checksum rf.crc32) = false := by
          revert hrc; cases optStrTruthy (pyOr rf.checksum rf.crc32) <;> simp
        exact ⟨by simp [shouldSkipFile, hex, hsm', hmt', hrc', hfail, hdef],
          fun _ => by simp [shouldSkipFile, hex, hsm', hmt', hrc', hfail, hdef]⟩

/-- C8 witness: matching sizes, failed checksum computation, remote checksum
present: both flag values agree and the decision is skip. -/
theorem c8_witness :
    shouldSkipFile ⟨true, 100, none, none⟩
      ⟨some 100, RemoteMTime.absent, some "bbbb", none⟩ true
      = shouldSkipFile ⟨true, 100, none, none⟩
        ⟨some 100, RemoteMTime.absent, some "bbbb", none⟩ false ∧
    (((⟨some 100, RemoteMTime.absent, some "bbbb", none⟩ : RemoteFileInfo).fileLength = none ∨
      (⟨some 100, RemoteMTime.absent, some "bbbb", none⟩ : RemoteFileInfo).fileLength
        = some (⟨true, 100, none, none⟩ : LocalFileState).size) →
      (shouldSkipFile ⟨true, 100, none, none⟩
        ⟨some 100, RemoteMTime.absent, some "bbbb", none⟩ true).1 = true) :=
  c8_checksum_failure_degrades _ _ rfl rfl

/-- C9: the final fetch branch of `_should_skip_file` (reason "Unknown
verification failure") is unreachable: for every input the returned reason is
never that one, because whenever control reaches the default branch the
remote size is unknown or equal to the local size. -/
theorem c9_unknown_failure_unreachable (lf : LocalFileState)
    (rf : RemoteFileInfo) (vc : Bool) :
    (shouldSkipFile lf rf vc).2 ≠ Reason.unknownVerificationFailure := by
  by_cases hx : lf.fsExists = false
  · simp [shouldSkipFile, hx]
  · have hx' : lf.fsExists = true := by
      revert hx; cases lf.fsExists <;> simp
    by_cases hsm : sizeMismatchFires lf.size rf.fileLength = true
    · simp [shouldSkipFile, hx', hsm]
    · have hsm' : sizeMismatchFires lf.size rf.fileLength = false := by
        revert hsm; cases sizeMismatchFires lf.size rf.fileLength <;> simp
      have hdef := defaultDecision_of_no_mismatch lf.size rf.fileLength hsm'
      by_cases hmt : mtimeBranchFires lf.mtimeResult rf.modificationDate = true
      · simp [shouldSkipFile, hx', hsm', hmt]
      · have hmt' : mtimeBranchFires lf.mtimeResult rf.modificationDate = false := by
          revert hmt; cases mtimeBranchFires lf.mtimeResult rf.modificationDate <;> simp
        cases hl : lf.checksumResult with
        | none => simp [shouldSkipFile, hx', hsm', hmt', hl, hdef]
        | some lc =>
            by_cases hne : lc.isEmpty = true
            · simp [shouldSkipFile, hx', hsm', hmt', hl, hne, hdef]
            · have hne' : lc.isEmpty = false := by
                revert hne; cases lc.isEmpty <;> simp
              by_cases hdq : strLower lc = strLower ((pyOr rf.checksum rf.crc32).getD "")
              · simp [shouldSkipFile, hx', hsm', hmt', hl, hne', hdq, hdef]
                split <;> simp
              · simp [shouldSkipFile, hx', hsm', hmt', hl, hne', hdq, hdef]
                split <;> simp

/-- C4: a get of key `k` at the very moment of the put of `(k, v)` returns
`v`, and a get of `k` once at least 15 minutes have elapsed since the put
returns a miss, with no intervening put of `k` (the queried state is exactly
the state the put produced). -/
theorem c4_cache_roundtrip (s : CacheState) (k : String) (v : List RelRecord)
    (t now : Int) (hexp : now - t ≥ CACHE_EXPIRY_MINUTES * 60) :
    getRelationshipCache (setRelationshipCache s k v t) k t = some v ∧
    getRelationshipCache (setRelationshipCache s k v t) k now = none := by
  have hfresh : t - t < CACHE_EXPIRY_MINUTES * 60 := by
    unfold CACHE_EXPIRY_MINUTES; omega
  have hstale : ¬ now - t < CACHE_EXPIRY_MINUTES * 60 := by
    unfold CACHE_EXPIRY_MINUTES at hexp ⊢; omega
  constructor
  · simp [getRelationshipCache, setRelationshipCache, alookup, hfresh,
      CACHE_EXPIRY_MINUTES]
  · simp [getRelationshipCache, setRelationshipCache, alookup, hstale]

/-- C4 witness: put at time 0 is hit at time 0 and missed at time 900
(15 minutes later). -/
theorem c4_witness :
    getRelationshipCache (setRelationshipCache emptyCache "children_DS1" [] 0)
      "children_DS1" 0 = some [] ∧
    getRelationshipCache (setRelationshipCache emptyCache "children_DS1" [] 0)
      "children_DS1" 900 = none :=
  c4_cache_roundtrip emptyCache "children_DS1" [] 0 900 (by decide)

/-- C6: after a put of `(k, [])`, a get of `k` within the expiry window is a
hit carrying the empty list (`some []`), while a key with no binding yields
the miss value `none`; the two are distinct. -/
theorem c6_empty_hit_vs_miss (s : CacheState) (k k' : String) (t now : Int)
    (hfresh : now - t < CACHE_EXPIRY_MINUTES * 60)
    (hnever : alookup k' s.relationship_cache = none) :
    getRelationshipCache (setRelationshipCache s k [] t) k now = some [] ∧
    getRelationshipCache s k' now = none ∧
    some ([] : List RelRecord) ≠ (none : Option (List RelRecord)) := by
  refine ⟨?_, ?_, by simp⟩
  · simp [getRelationshipCache, setRelationshipCache, alookup, hfresh]
  · simp [getRelationshipCache, hnever]

/-- C6 witness: caching an empty list for `children_DS1` at time 0 gives a
hit of `some []` one minute later, while `parents_DS1`, never put, misses. -/
theorem c6_witness :
    getRelationshipCache (setRelationshipCache emptyCache "children_DS1" [] 0)
      "children_DS1" 60 = some [] ∧
    getRelationshipCache emptyCache "parents_DS1" 60 = none ∧
    some ([] : List RelRecord) ≠ (none : Option (List RelRecord)) :=
  c6_empty_hit_vs_miss emptyCache "children_DS1" "parents_DS1" 0 60
    (by decide) rfl

/-- C10: a put writes both dicts for its key and preserves the invariant
that every key bound in the value dict is bound in the timestamp dict; a get
is a pure reader of the state (the embedding gives it no way to mutate it),
and an entry whose age reaches the expiry window is reported as a miss while
its binding remains present in the timestamp dict. -/
theorem c10_cache_invariant (s : CacheState) (k : String) (v : List RelRecord)
    (t now : Int) (hinv : cacheInvariant s) :
    cacheInvariant (setRelationshipCache s k v t) ∧
    alookup k (setRelationshipCache s k v t).relationship_cache = some v ∧
    alookup k (setRelationshipCache s k v t).cache_timestamps = some t ∧
    (∀ k' ts, alookup k' s.cache_timestamps = some ts →
      now - ts ≥ CACHE_EXPIRY_MINUTES * 60 →
      getRelationshipCache s k' now = none ∧
      (alookup k' s.cache_timestamps).isSome = true) := by
  refine ⟨?_, by simp [setRelationshipCache, alookup],
    by simp [setRelationshipCache, alookup], ?_⟩
  · intro k₀ h
    by_cases hk : k = k₀
    · simp [setRelationshipCache, alookup, hk]
    · simp only [setRelationshipCache, alookup, hk, if_false] at h ⊢
      exact hinv k₀ h
  · intro k' ts hts hexp
    have hstale : ¬ now - ts < CACHE_EXPIRY_MINUTES * 60 := by
      unfold CACHE_EXPIRY_MINUTES at hexp ⊢; omega
    refine ⟨?_, by simp [hts]⟩
    unfold getRelationshipCache
    rw [hts]
    cases alookup k' s.relationship_cache with
    | none => rfl
    | some v' => simp [hstale]

/-- C10 witness: starting from the empty cache (which satisfies the
invariant), a put of `(children_DS1, [])` at time 0, inspected at time
900. -/
theorem c10_witness :
    cacheInvariant (setRelationshipCache emptyCache "children_DS1" [] 0) ∧
    alookup "children_DS1"
      (setRelationshipCache emptyCache "children_DS1" [] 0).relationship_cache
      = some [] ∧
    alookup "children_DS1"
      (setRelationshipCache emptyCache "children_DS1" [] 0).cache_timestamps
      = some 0 ∧
    (∀ k' ts, alookup k' emptyCache.cache_timestamps = some ts →
      900 - ts ≥ CACHE_EXPIRY_MINUTES * 60 →
      getRelationshipCache emptyCache k' 900 = none ∧
      (alookup k' emptyCache.cache_timestamps).isSome = true) :=
  c10_cache_invariant emptyCache "children_DS1" [] 0 900
    (fun k h => by simp [emptyCache, alookup] at h)

/-- C1: the fallback path of the relationship lookup discards its findings.
At an input where the primary filtered query raises and the fallback's own
relationship accessor returns one child, the fallback function nevertheless
evaluates to `None` (its Python body prints the children but ends without a
`return` statement), so the lookup returns the empty list and leaves the
cache untouched — the spec's "fallback result is also cached if non-empty"
can never happen. -/
theorem c1_fallback_result_discarded :
    cexFallbackEnv.filteredQuery = PyResult.raised ∧
    cexFallbackEnv.ownAccessor = PyResult.ok (some [dsChildRaw]) ∧
    searchDatasetChildrenFallback cexFallbackEnv = none ∧
    searchDatasetChildren cexFallbackEnv "DS1" emptyCache 0 = ([], emptyCache) := by
  decide

/-- The per-file analysis loop never counts a file for download when every
manifest row with a usable path receives a skip decision: the
`download_count` component of the accumulator is left unchanged. -/
theorem foldl_no_download_of_all_skip (fs : String → LocalFileState) (vc : Bool) :
    ∀ (entries : List ManifestEntry) (acc : Nat × Nat × List String),
      (∀ e ∈ entries, ∀ p, e.pathInDataSet = some p → p.isEmpty = false →
        (shouldSkipFile (fs p) e.fileInfo vc).1 = true) →
      (entries.foldl (analyzeStep fs vc) acc).2.1 = acc.2.1
  | [], _, _ => rfl
  | e :: rest, acc, h => by
      rw [List.foldl_cons]
      have hrest : ∀ e' ∈ rest, ∀ p, e'.pathInDataSet = some p →
          p.isEmpty = false → (shouldSkipFile (fs p) e'.fileInfo vc).1 = true :=
        fun e' he' => h e' (List.mem_cons_of_mem _ he')
      rw [foldl_no_download_of_all_skip fs vc rest _ hrest]
      unfold analyzeStep
      cases hp : e.pathInDataSet with
      | none => rfl
      | some p =>
          by_cases hpe : p.isEmpty = true
          · simp [hpe]
          · have hpe' : p.isEmpty = false := by
              revert hpe; cases p.isEmpty <;> simp
            have hskip := h e (List.mem_cons_self e rest) p hp hpe'
            simp [hpe', hskip]

/-- C5: with `force` unset, when the dataset is found, the manifest
enumerates successfully and every manifest row receives a skip decision, the
download reports success and the external transfer call is never invoked. -/
theorem c5_all_skipped_no_transfer (env : DownloadEnv) (vc : Bool)
    (entries : List ManifestEntry)
    (hfound : env.datasetFound = true)
    (hman : env.manifest = PyResult.ok entries)
    (hall : ∀ e ∈ entries, ∀ p, e.pathInDataSet = some p → p.isEmpty = false →
      (shouldSkipFile (env.fs p) e.fileInfo vc).1 = true) :
    downloadDataset env false vc
      = { success := true, transferInvoked := false } := by
  have h0 : (analyzeFiles env.fs vc entries).2.1 = 0 :=
    foldl_no_download_of_all_skip env.fs vc entries (0, 0, []) hall
  unfold downloadDataset
  rw [hfound, hman]
  simp [h0]

/-- C5 witness: a one-file manifest (`a.txt`, size 100) with a matching
local copy: the download returns success without a transfer call. -/
theorem c5_witness :
    downloadDataset witDownloadEnv false false
      = { success := true, transferInvoked := false } :=
  c5_all_skipped_no_transfer witDownloadEnv false
    [⟨some "a.txt", witRemotePlain⟩] rfl rfl (by
      intro e he p hp hpe
      simp only [List.mem_singleton] at he
      subst he
      simp only at hp
      injection hp with hq
      subst hq
      decide)

end Pybis
